import Mathlib

/-
Shallow embedding of the order-creation core of the MuchiriRobee/ecommercebackend
repository (src/routes/orders.js, the tier-pricing variant of the POST / handler
together with its GET routes).  Monetary values are modelled as rationals;
JavaScript `Number(x.toFixed(2))` becomes rounding to two decimal places and
`Math.round` becomes rounding to the nearest integer (ties up), both via
Mathlib's `round`.  Nullable SQL columns are `Option`s, and the JavaScript
truthiness idiom `a || b` (where `0`, `null` and `NaN` are falsy) is made
explicit by the `jsOr` helpers.
-/

namespace Shop

attribute [local semireducible] Rat.add Rat.sub Rat.mul Rat.inv Rat.ofScientific

/-- Model of `Number(x.toFixed(2))`: round a rational to two decimal places. -/
def round2 (x : ℚ) : ℚ := (round (100 * x) : ℤ) / 100

/-- JavaScript `parseFloat(a) || b` on a nullable numeric value: a missing value
parses to `NaN` (falsy) and `0` is falsy, so both fall through to the default. -/
def jsOrQ (v : Option ℚ) (d : ℚ) : ℚ :=
  match v with
  | none => d
  | some x => if x = 0 then d else x

/-- JavaScript `a || b` on a nullable integer column (`0` and `null` are falsy). -/
def jsOrN (v : Option Nat) (d : Nat) : Nat :=
  match v with
  | none => d
  | some n => if n = 0 then d else n

/-- JavaScript `a || null` on a nullable integer column: `0` collapses to `null`. -/
def jsNullN (v : Option Nat) : Option Nat :=
  match v with
  | none => none
  | some n => if n = 0 then none else some n

/-- One price tier, as reconstructed in the POST / handler:
`{ min_quantity, max_quantity (null = unbounded), price }`. -/
structure Tier where
  minQuantity : Nat
  maxQuantity : Option Nat
  price : ℚ
deriving DecidableEq, Repr

/-- A row of the `products` table, restricted to the columns the order routes
read (`SELECT id, product_name, selling_price1, vat, stock_units, image_url,
product_code, cashback_rate, qty1_min, qty1_max, selling_price2, qty2_min,
qty2_max, selling_price3, qty3_min FROM products`). -/
structure Product where
  id : Nat
  active : Bool
  productName : String
  imageUrl : Option String
  productCode : String
  sellingPrice1 : ℚ
  sellingPrice2 : Option ℚ
  sellingPrice3 : Option ℚ
  qty1Min : Option Nat
  qty1Max : Option Nat
  qty2Min : Option Nat
  qty2Max : Option Nat
  qty3Min : Option Nat
  vat : Option ℚ
  cashbackRate : Option ℚ
  stockUnits : Int
deriving DecidableEq, Repr

/-- Tier 1 as built by the handler:
`{ min_quantity: product.qty1_min || 1, max_quantity: product.qty1_max || null,
   price: parseFloat(product.selling_price1) || 0 }`. -/
def tier1 (p : Product) : Tier :=
  { minQuantity := jsOrN p.qty1Min 1
    maxQuantity := jsNullN p.qty1Max
    price := p.sellingPrice1 }

/-- Tier 2, present only when `product.selling_price2 && product.qty2_min` is
truthy: `{ min_quantity: qty2_min, max_quantity: qty2_max || null, price }`. -/
def tier2 (p : Product) : List Tier :=
  match p.sellingPrice2, p.qty2Min with
  | some pr, some m =>
      if pr ≠ 0 ∧ m ≠ 0 then [⟨m, jsNullN p.qty2Max, pr⟩] else []
  | _, _ => []

/-- Tier 3, present only when `product.selling_price3 && product.qty3_min` is
truthy; its max_quantity is always `null`. -/
def tier3 (p : Product) : List Tier :=
  match p.sellingPrice3, p.qty3Min with
  | some pr, some m =>
      if pr ≠ 0 ∧ m ≠ 0 then [⟨m, none, pr⟩] else []
  | _, _ => []

/-- The reconstructed `tier_pricing` array. -/
def tierPricing (p : Product) : List Tier :=
  tier1 p :: (tier2 p ++ tier3 p)

/-- The `find` predicate:
`quantity >= t.min_quantity && (!t.max_quantity || quantity <= t.max_quantity)`
(a `0` or `null` max_quantity is falsy, hence no upper bound). -/
def tierMatch (q : Nat) (t : Tier) : Bool :=
  decide (t.minQuantity ≤ q) &&
    (match t.maxQuantity with
     | none => true
     | some m => if m = 0 then true else decide (q ≤ m))

/-- `tier_pricing.find(...) || tier_pricing[0]`: the first tier whose range
contains the quantity, falling back to tier 1. -/
def resolveTier (p : Product) (q : Nat) : Tier :=
  ((tierPricing p).find? (tierMatch q)).getD (tier1 p)

/-- One element of the request's `cartItems` array. -/
structure CartItem where
  id : Nat
  quantity : Nat
  unitPrice : Option ℚ
  vatRate : Option ℚ
  cashbackPercent : Option ℚ
deriving DecidableEq, Repr

/-- A priced cart line (the object pushed onto `validatedItems`). -/
structure PricedItem where
  id : Nat
  quantity : Nat
  productName : String
  imageUrl : Option String
  productCode : String
  unitPrice : ℚ
  vatRate : ℚ
  subtotalItemExclVAT : ℚ
  cashbackPercent : ℚ
  cashbackAmount : ℚ
deriving DecidableEq, Repr

/-- Per-line pricing, from the body of the cart loop:
`unitPrice = parseFloat(item.unitPrice) || tier.price`,
`vatRate = parseFloat(item.vatRate) || product.vat || 0.16`,
`priceExclVAT = Number((unitPrice / (1 + vatRate/100)).toFixed(2))`,
`subtotalItemExclVAT = priceExclVAT * quantity`,
`cashbackPercent = parseFloat(item.cashbackPercent) || product.cashback_rate || 5`,
`cashbackAmount = Number((subtotalItemExclVAT * (cashbackPercent/100)).toFixed(2))`. -/
def priceLine (p : Product) (it : CartItem) : PricedItem :=
  let t := resolveTier p it.quantity
  let unitPrice := jsOrQ it.unitPrice t.price
  let vatRate := jsOrQ it.vatRate (jsOrQ p.vat (16 / 100))
  let priceExclVAT := round2 (unitPrice / (1 + vatRate / 100))
  let sub := priceExclVAT * (it.quantity : ℚ)
  let cb := jsOrQ it.cashbackPercent (jsOrQ p.cashbackRate 5)
  { id := it.id
    quantity := it.quantity
    productName := p.productName
    imageUrl := p.imageUrl
    productCode := p.productCode
    unitPrice := unitPrice
    vatRate := vatRate
    subtotalItemExclVAT := sub
    cashbackPercent := cb
    cashbackAmount := round2 (sub * (cb / 100)) }

/-- A row of the `orders` table (the columns written and read by these routes). -/
structure ShippingInfo where
  username : String
  email : String
  phone : String
  address : String
  city : String
  country : String
deriving DecidableEq, Repr

structure OrderRow where
  id : Nat
  orderNum : String
  userId : Nat
  paymentMethod : String
  shippingInfo : ShippingInfo
  subtotalExclVAT : ℚ
  vatAmount : ℚ
  shippingCost : ℚ
  totalAmount : ℚ
deriving DecidableEq, Repr

/-- A row of the `order_items` table. -/
structure OrderItemRow where
  orderId : Nat
  productId : Nat
  productName : String
  imageUrl : Option String
  productCode : String
  quantity : Nat
  unitPrice : ℚ
  vatRate : ℚ
  subtotalExclVAT : ℚ
  cashbackAmount : ℚ
  cashbackPercent : ℚ
deriving DecidableEq, Repr

/-- The persistent store: the three tables the order routes touch plus the
`order_number_seq` sequence.  `insertFails` models a storage-layer fault on the
order-header INSERT (e.g. a constraint violation or dropped connection), so
that persistence failures inside the transaction are representable. -/
structure DB where
  products : List Product
  orders : List OrderRow
  orderItems : List OrderItemRow
  seq : Nat
  insertFails : Bool
deriving DecidableEq, Repr

/-- The POST / request body. -/
structure OrderRequest where
  shippingInfo : ShippingInfo
  paymentMethod : String
  cartItems : List CartItem
  subtotalExclVAT : ℚ
  vatAmount : ℚ
  shippingCost : ℚ
  total : ℚ
deriving DecidableEq, Repr

/-- The `validateOrder` express-validator chain (string-format validators such
as `isEmail` are abstracted to non-emptiness): shipping fields non-empty,
payment method in its whitelist, at least one cart item, positive ids and
quantities, optional non-negative unit-price override, optional cashback
percent in [0,100], and the four money figures non-negative. -/
def validateReq (r : OrderRequest) : Bool :=
  (!r.shippingInfo.username.isEmpty) && (!r.shippingInfo.email.isEmpty) &&
  (!r.shippingInfo.phone.isEmpty) && (!r.shippingInfo.address.isEmpty) &&
  (!r.shippingInfo.city.isEmpty) && (!r.shippingInfo.country.isEmpty) &&
  (r.paymentMethod == "mpesa" || r.paymentMethod == "card") &&
  (!r.cartItems.isEmpty) &&
  r.cartItems.all (fun it =>
    decide (1 ≤ it.id) && decide (1 ≤ it.quantity) &&
    (match it.unitPrice with
     | none => true
     | some u => decide (0 ≤ u)) &&
    (match it.cashbackPercent with
     | none => true
     | some c => decide (0 ≤ c ∧ c ≤ 100))) &&
  decide (0 ≤ r.subtotalExclVAT) && decide (0 ≤ r.vatAmount) &&
  decide (0 ≤ r.shippingCost) && decide (0 ≤ r.total)

/-- The errors thrown inside the POST / transaction. -/
inductive OrderError where
  | productNotFound (id : Nat)
  | insufficientStock (id : Nat)
  | subtotalMismatch (received calculated : ℚ)
  | shippingMismatch (received : ℚ)
  | totalMismatch (received : ℚ) (calculated : ℤ)
  | insertFailure
deriving DecidableEq, Repr

/-- The SQL statements the handler issues, in program order, as trace events. -/
inductive Ev where
  | begin
  | selectProduct (id : Nat)
  | nextval
  | insertOrder
  | insertItem (id : Nat)
  | updateStock (id : Nat)
  | commit
  | rollback
deriving DecidableEq, Repr

/-- `SELECT ... FROM products WHERE id = $1 AND active = true`. -/
def productLookup (db : DB) (pid : Nat) : Option Product :=
  db.products.find? (fun p => p.id == pid && p.active)

/-- The cart loop: per item, look the product up (error if missing/inactive),
check stock, price the line, and accumulate the engine subtotal.  Returns the
SELECT events issued so far together with either the first error thrown or the
priced lines and `calculatedSubtotalExclVAT`. -/
def priceItems (db : DB) : List CartItem → List Ev × Except OrderError (List PricedItem × ℚ)
  | [] => ([], .ok ([], 0))
  | it :: rest =>
    match productLookup db it.id with
    | none => ([.selectProduct it.id], .error (.productNotFound it.id))
    | some p =>
      if p.stockUnits < (it.quantity : Int) then
        ([.selectProduct it.id], .error (.insufficientStock it.id))
      else
        match priceItems db rest with
        | (evs, .error e) => (.selectProduct it.id :: evs, .error e)
        | (evs, .ok (ps, s)) =>
          (.selectProduct it.id :: evs,
           .ok (priceLine p it :: ps, (priceLine p it).subtotalItemExclVAT + s))

/-- The subtotal check (`received.toFixed(2) !== calculated.toFixed(2)` throws):
the two figures are accepted exactly when they agree after rounding each to two
decimal places. -/
def subtotalOk (received calculated : ℚ) : Bool :=
  decide (round2 received = round2 calculated)

/-- `const expectedShippingCost = 299`. -/
def expectedShippingCost : ℚ := 299

/-- The shipping check: `shippingCost.toFixed(2) !== 299..toFixed(2)` throws. -/
def shippingOk (received : ℚ) : Bool :=
  decide (round2 received = round2 expectedShippingCost)

/-- `calculatedTotal = Math.round(parseFloat(calculatedSubtotalExclVAT) +
parseFloat(vatAmount) + parseFloat(shippingCost))`; note that
`calculatedSubtotalExclVAT` was reassigned to its `toFixed(2)` form just above,
hence the inner `round2`. -/
def calcTotal (calculatedSubtotal vat shipping : ℚ) : ℤ :=
  round (round2 calculatedSubtotal + vat + shipping)

/-- The total check: `total.toFixed(2) !== calculatedTotal.toFixed(2)` throws;
the right-hand side is an integer, so this is agreement of the rounded total
with that integer. -/
def totalOk (received : ℚ) (calculated : ℤ) : Bool :=
  decide (round2 received = (calculated : ℚ))

/-- `String(sequenceNumber).padStart(6, '0')`. -/
def padLeft6 (s : String) : String :=
  if s.length < 6 then String.mk (List.replicate (6 - s.length) '0') ++ s else s

/-- The generated order number. -/
def orderNumber (n : Nat) : String := "ORD" ++ padLeft6 (toString n)

/-- The per-item write loop: insert the `order_items` row and issue
`UPDATE products SET stock_units = stock_units - $1 WHERE id = $2`. -/
def insertItems (oid : Nat) : List PricedItem → DB → List Ev × DB
  | [], db => ([], db)
  | it :: rest, db =>
    let row : OrderItemRow :=
      { orderId := oid
        productId := it.id
        productName := it.productName
        imageUrl := it.imageUrl
        productCode := it.productCode
        quantity := it.quantity
        unitPrice := it.unitPrice
        vatRate := it.vatRate
        subtotalExclVAT := it.subtotalItemExclVAT
        cashbackAmount := it.cashbackAmount
        cashbackPercent := it.cashbackPercent }
    let db1 : DB :=
      { db with
        orderItems := db.orderItems ++ [row]
        products := db.products.map (fun p =>
          if p.id = it.id then { p with stockUnits := p.stockUnits - (it.quantity : Int) } else p) }
    (.insertItem it.id :: .updateStock it.id :: (insertItems oid rest db1).1,
     (insertItems oid rest db1).2)

/-- The write phase: `nextval('order_number_seq')`, the order-header INSERT
(storing the raw client figures), then the item loop.  A storage fault on the
header INSERT surfaces as an error. -/
def writeOrder (db : DB) (uid : Nat) (r : OrderRequest) (items : List PricedItem) :
    List Ev × Except OrderError (DB × Nat × String) :=
  if db.insertFails then
    ([Ev.nextval, Ev.insertOrder], .error .insertFailure)
  else
    let oid := db.orders.length + 1
    let row : OrderRow :=
      { id := oid
        orderNum := orderNumber (db.seq + 1)
        userId := uid
        paymentMethod := r.paymentMethod
        shippingInfo := r.shippingInfo
        subtotalExclVAT := r.subtotalExclVAT
        vatAmount := r.vatAmount
        shippingCost := r.shippingCost
        totalAmount := r.total }
    let db1 : DB := { db with seq := db.seq + 1, orders := db.orders ++ [row] }
    ([Ev.nextval, Ev.insertOrder] ++ (insertItems oid items db1).1,
     .ok ((insertItems oid items db1).2, oid, orderNumber (db.seq + 1)))

/-- The three consistency checks followed by the write phase, in program order:
subtotal, shipping, total; the first failure short-circuits. -/
def afterPricing (db : DB) (uid : Nat) (r : OrderRequest)
    (items : List PricedItem) (calcSub : ℚ) :
    List Ev × Except OrderError (DB × Nat × String) :=
  if subtotalOk r.subtotalExclVAT calcSub then
    if shippingOk r.shippingCost then
      if totalOk r.total (calcTotal calcSub r.vatAmount r.shippingCost) then
        writeOrder db uid r items
      else
        ([], .error (.totalMismatch r.total (calcTotal calcSub r.vatAmount r.shippingCost)))
    else
      ([], .error (.shippingMismatch r.shippingCost))
  else
    ([], .error (.subtotalMismatch r.subtotalExclVAT calcSub))

/-- The body of the `try { ... }` block between BEGIN and COMMIT: the cart
loop, the checks, and the writes, with the accumulated statement trace. -/
def txBody (db : DB) (uid : Nat) (r : OrderRequest) :
    List Ev × Except OrderError (DB × Nat × String) :=
  match priceItems db r.cartItems with
  | (evs, .error e) => (evs, .error e)
  | (evs, .ok (items, calcSub)) =>
    (evs ++ (afterPricing db uid r items calcSub).1,
     (afterPricing db uid r items calcSub).2)

/-- The HTTP response of POST /. -/
structure Response where
  status : Nat
  message : String
  err : Option OrderError
deriving DecidableEq, Repr

/-- The POST / handler: reject on input validation, otherwise run the
transaction body; on success COMMIT and answer 201, on any thrown error
ROLLBACK (discarding the transaction's working state, so the committed store
is the original one) and answer 400 carrying the error.  The result is the
committed store, the response, and the SQL statement trace. -/
def createOrder (db : DB) (uid : Nat) (r : OrderRequest) : DB × Response × List Ev :=
  if validateReq r = false then
    (db, { status := 400, message := "Validation failed", err := none }, [])
  else
    match txBody db uid r with
    | (evs, .ok (db1, _, _)) =>
      (db1, { status := 201, message := "Order created", err := none },
       .begin :: evs ++ [.commit])
    | (evs, .error e) =>
      (db, { status := 400, message := "Failed to create order", err := some e },
       .begin :: evs ++ [.rollback])

/-- An authenticated caller (the decoded JWT payload `req.user`). -/
structure Identity where
  id : Nat
  role : String
deriving DecidableEq, Repr

/-- Outcome of `GET /:orderId`. -/
inductive GetOrderResult where
  | found (order : OrderRow) (items : List OrderItemRow)
  | notFound
  | serverError
deriving DecidableEq, Repr

/-- The `GET /:orderId` handler body: reading `req.user.id` with no `req.user`
raises a TypeError that the catch forwards to the 500 middleware; with a user,
the query is `WHERE o.id = $1 AND (o.user_id = $2 OR $3 = 'admin')`, answering
404 on no row and the order plus its items otherwise. -/
def getOrderById (db : DB) (user : Option Identity) (oid : Nat) : GetOrderResult :=
  match user with
  | none => .serverError
  | some u =>
    match db.orders.find? (fun o => o.id == oid && (o.userId == u.id || u.role == "admin")) with
    | none => .notFound
    | some o => .found o (db.orderItems.filter (fun it => it.orderId == oid))

/-- The mounted `GET /:orderId` route: no `verifyToken` middleware is attached
(and the server mounts no other authentication middleware), so `req.user` is
always absent. -/
def getOrderByIdRoute (db : DB) (oid : Nat) : GetOrderResult :=
  getOrderById db none oid

/-- The mounted `GET /user/:userId` route: no middleware and no ownership
check; it returns every order of the path's user id with its items, to any
caller. -/
def getUserOrders (db : DB) (pathUserId : Nat) : List (OrderRow × List OrderItemRow) :=
  (db.orders.filter (fun o => o.userId == pathUserId)).map
    (fun o => (o, db.orderItems.filter (fun it => it.orderId == o.id)))

/-
Concrete fixtures used by the witnesses and counterexamples below.
-/

/-- A well-formed shipping block. -/
def si0 : ShippingInfo :=
  { username := "u", email := "u@example.com", phone := "p"
    address := "a", city := "c", country := "k" }

/-- Product 1: VAT-inclusive price 11.6116 at 16% VAT, so the VAT-exclusive
unit price rounds to exactly 10.01. -/
def prodA : Product :=
  { id := 1, active := true, productName := "A", imageUrl := none, productCode := "PA"
    sellingPrice1 := 116116 / 10000, sellingPrice2 := none, sellingPrice3 := none
    qty1Min := some 1, qty1Max := some 100, qty2Min := none, qty2Max := none
    qty3Min := none, vat := some 16, cashbackRate := some 5, stockUnits := 10 }

/-- A store holding just `prodA`. -/
def db0 : DB :=
  { products := [prodA], orders := [], orderItems := [], seq := 0, insertFails := false }

/-- A request whose submitted subtotal (10.00) differs from the engine subtotal
(10.01) by exactly one cent. -/
def reqC1 : OrderRequest :=
  { shippingInfo := si0, paymentMethod := "mpesa"
    cartItems := [{ id := 1, quantity := 1, unitPrice := none, vatRate := none, cashbackPercent := none }]
    subtotalExclVAT := 10, vatAmount := 1, shippingCost := 299, total := 310 }

/-- The same cart with consistent figures: subtotal 10.01, VAT 0.99, shipping
299, total round(10.01 + 0.99 + 299) = 310. -/
def reqOk : OrderRequest :=
  { shippingInfo := si0, paymentMethod := "mpesa"
    cartItems := [{ id := 1, quantity := 1, unitPrice := none, vatRate := none, cashbackPercent := none }]
    subtotalExclVAT := 1001 / 100, vatAmount := 99 / 100, shippingCost := 299, total := 310 }

/-- The same store with the storage layer failing the order-header INSERT. -/
def dbFail : DB := { db0 with insertFails := true }

/-- Product 2: catalog price 1160 VAT-inclusive (1000 exclusive at 16% VAT),
used to show that a client override of 1.16 is accepted verbatim. -/
def prodB : Product :=
  { id := 2, active := true, productName := "B", imageUrl := none, productCode := "PB"
    sellingPrice1 := 1160, sellingPrice2 := none, sellingPrice3 := none
    qty1Min := some 1, qty1Max := some 100, qty2Min := none, qty2Max := none
    qty3Min := none, vat := some 16, cashbackRate := some 5, stockUnits := 10 }

/-- A store holding just `prodB`. -/
def dbB : DB :=
  { products := [prodB], orders := [], orderItems := [], seq := 0, insertFails := false }

/-- A cart line for `prodB` carrying an override price of 1.16. -/
def itemB : CartItem :=
  { id := 2, quantity := 1, unitPrice := some (116 / 100), vatRate := none, cashbackPercent := none }

/-- A request repricing `prodB` from 1160 down to 1.16 via the `unitPrice`
override, with all the submitted figures consistent with the override. -/
def reqB : OrderRequest :=
  { shippingInfo := si0, paymentMethod := "mpesa"
    cartItems := [itemB]
    subtotalExclVAT := 1, vatAmount := 0, shippingCost := 299, total := 300 }

/-- A request naming a product id that is not in the store. -/
def reqBad : OrderRequest :=
  { shippingInfo := si0, paymentMethod := "mpesa"
    cartItems := [{ id := 99, quantity := 1, unitPrice := none, vatRate := none, cashbackPercent := none }]
    subtotalExclVAT := 0, vatAmount := 0, shippingCost := 299, total := 0 }

/-- A product with three separated tiers [1,5]@100, [6,10]@90, [11,∞)@80. -/
def prodTiered : Product :=
  { id := 3, active := true, productName := "T", imageUrl := none, productCode := "PT"
    sellingPrice1 := 100, sellingPrice2 := some 90, sellingPrice3 := some 80
    qty1Min := some 1, qty1Max := some 5, qty2Min := some 6, qty2Max := some 10
    qty3Min := some 11, vat := some 16, cashbackRate := some 5, stockUnits := 100 }

/-- A product with overlapping tiers, reachable through the product-creation
route (which only requires qty2_max > qty1_max, never qty2_min > qty1_max):
tier 1 is [1,10]@100 and tier 2 is [5,20]@90. -/
def prodOverlap : Product :=
  { id := 4, active := true, productName := "O", imageUrl := none, productCode := "PO"
    sellingPrice1 := 100, sellingPrice2 := some 90, sellingPrice3 := none
    qty1Min := some 1, qty1Max := some 10, qty2Min := some 5, qty2Max := some 20
    qty3Min := none, vat := some 16, cashbackRate := some 5, stockUnits := 100 }

/-- Tier `a` lies entirely below tier `b`: `a` has a genuine (nonzero) upper
bound that is below `b`'s lower bound.  A tier list that is `Pairwise
tierBelow` is ordered by min_quantity with non-overlapping ranges, which is the
well-formedness the data model demands of a product's tiers. -/
def tierBelow (a b : Tier) : Bool :=
  match a.maxQuantity with
  | none => false
  | some m => decide (m ≠ 0) && decide (m < b.minQuantity)

/-- The priced line produced for `reqC1`'s single cart item against `prodA`. -/
def pricedA : PricedItem :=
  { id := 1, quantity := 1, productName := "A", imageUrl := none, productCode := "PA"
    unitPrice := 29029 / 2500, vatRate := 16, subtotalItemExclVAT := 1001 / 100
    cashbackPercent := 5, cashbackAmount := 1 / 2 }

/-- The store after `reqB` commits against `dbB`. -/
def dbB1 : DB :=
  { products := [{ prodB with stockUnits := 9 }]
    orders := [{ id := 1, orderNum := "ORD000001", userId := 7, paymentMethod := "mpesa"
                 shippingInfo := si0, subtotalExclVAT := 1, vatAmount := 0
                 shippingCost := 299, totalAmount := 300 }]
    orderItems := [{ orderId := 1, productId := 2, productName := "B", imageUrl := none
                     productCode := "PB", quantity := 1, unitPrice := 29 / 25, vatRate := 16
                     subtotalExclVAT := 1, cashbackAmount := 1 / 20, cashbackPercent := 5 }]
    seq := 1, insertFails := false }

/-
A minimal interleaving model of two concurrent POST / requests for the same
product, under the store's read-committed isolation.  Each transaction runs
the code's two stock-relevant statements: the plain
`SELECT ... stock_units ... ` followed by the application-level
`if (stock_units < quantity) throw`, and later the blind relative
`UPDATE products SET stock_units = stock_units - $1`.  A SELECT reads the
currently committed stock; the UPDATE applies its decrement to the committed
stock at update time (the competing writer's row lock only delays, never
re-checks) and the transaction then commits.
-/

/-- Progress of one order transaction: not yet run the stock check, passed the
stock check, committed its decrement, or aborted on the check. -/
inductive TxnPhase where
  | ready
  | passed
  | committed
  | failed
deriving DecidableEq, Repr

/-- Committed stock plus the two transactions' phases. -/
structure ConcState where
  stock : Int
  t1 : TxnPhase
  t2 : TxnPhase
deriving DecidableEq, Repr

/-- One step of a single transaction ordering `qty` units: the stock check
reads the committed stock, and the decrement-and-commit subtracts from the
committed stock. -/
def txnStep (qty : Int) (stock : Int) : TxnPhase → TxnPhase × Int
  | .ready => if stock < qty then (.failed, stock) else (.passed, stock)
  | .passed => (.committed, stock - qty)
  | ph => (ph, stock)

/-- Run the transaction chosen by the scheduler bit (`true` picks T1). -/
def schedStep (qty : Int) (s : ConcState) (pickFirst : Bool) : ConcState :=
  if pickFirst then
    { s with t1 := (txnStep qty s.stock s.t1).1, stock := (txnStep qty s.stock s.t1).2 }
  else
    { s with t2 := (txnStep qty s.stock s.t2).1, stock := (txnStep qty s.stock s.t2).2 }

/-- Run a whole schedule. -/
def runSched (qty : Int) : List Bool → ConcState → ConcState
  | [], s => s
  | b :: rest, s => runSched qty rest (schedStep qty s b)

/-
Helper lemmas.
-/

/-- Rounding an integer to two decimals is the identity. -/
lemma round2_intCast (n : ℤ) : round2 (n : ℚ) = n := by
  unfold round2
  have h : (100 : ℚ) * (n : ℚ) = ((100 * n : ℤ) : ℚ) := by push_cast; ring
  rw [h, round_intCast]
  push_cast
  rw [mul_comm, mul_div_cancel_right₀ _ (by norm_num : (100 : ℚ) ≠ 0)]

/-- The item-insertion loop never touches the `orders` table. -/
lemma insertItems_orders (oid : Nat) :
    ∀ (l : List PricedItem) (db : DB), ((insertItems oid l db).2).orders = db.orders
  | [], _ => rfl
  | _ :: rest, db => by
    simp only [insertItems]
    exact insertItems_orders oid rest _

/-- A tier lying entirely below another cannot match a quantity the higher
tier matches. -/
lemma not_match_of_below {a b : Tier} {q : Nat}
    (hab : tierBelow a b = true) (hb : tierMatch q b = true) :
    tierMatch q a = false := by
  unfold tierBelow at hab
  rcases ha : a.maxQuantity with - | m
  · rw [ha] at hab; exact absurd hab (by simp)
  · rw [ha] at hab
    simp only [Bool.and_eq_true, decide_eq_true_eq] at hab
    obtain ⟨hm0, hmlt⟩ := hab
    have hbm : b.minQuantity ≤ q := by
      unfold tierMatch at hb
      simp only [Bool.and_eq_true, decide_eq_true_eq] at hb
      exact hb.1
    have hqm : ¬ (q ≤ m) := by omega
    unfold tierMatch
    rw [ha]
    simp [hm0, hqm]

/-- `find?` returns the i-th element when the i-th matches and the tiers are
pairwise separated. -/
lemma find_first_of_sep (q : Nat) :
    ∀ (ts : List Tier) (i : Nat) (hi : i < ts.length),
      ts.Pairwise (fun a b => tierBelow a b = true) →
      tierMatch q (ts.get ⟨i, hi⟩) = true →
      ts.find? (tierMatch q) = some (ts.get ⟨i, hi⟩)
  | [], i, hi => by simp at hi
  | a :: rest, 0, hi => fun _ hm => by
      simpa using List.find?_cons_of_pos rest hm
  | a :: rest, i + 1, hi => fun hp hm => by
      have hi' : i < rest.length := Nat.lt_of_succ_lt_succ hi
      have hmem : rest.get ⟨i, hi'⟩ ∈ rest := rest.get_mem i hi'
      have hbelow : tierBelow a (rest.get ⟨i, hi'⟩) = true :=
        (List.pairwise_cons.mp hp).1 _ hmem
      have hna : tierMatch q a = false := not_match_of_below hbelow hm
      rw [List.find?_cons_of_neg rest (by simp [hna])]
      exact find_first_of_sep q rest i hi' (List.pairwise_cons.mp hp).2 hm

/-- The accumulated engine subtotal is the sum of the per-line subtotals. -/
lemma priceItems_sum (db : DB) (cart : List CartItem) (evs : List Ev)
    (items : List PricedItem) (calcSub : ℚ)
    (hp : priceItems db cart = (evs, .ok (items, calcSub))) :
    calcSub = (items.map (fun pr =>
      round2 (pr.unitPrice / (1 + pr.vatRate / 100)) * (pr.quantity : ℚ))).sum := by
  induction cart generalizing evs items calcSub with
  | nil =>
    simp only [priceItems, Prod.mk.injEq, Except.ok.injEq] at hp
    obtain ⟨-, h2, h3⟩ := hp
    subst h2
    subst h3
    simp
  | cons it rest ih =>
    simp only [priceItems] at hp
    cases hl : productLookup db it.id with
    | none =>
      simp only [hl] at hp
      simp at hp
    | some p =>
      simp only [hl] at hp
      by_cases hs : p.stockUnits < (it.quantity : Int)
      · rw [if_pos hs] at hp
        simp at hp
      · rw [if_neg hs] at hp
        rcases hr : priceItems db rest with ⟨evs1, res1⟩
        simp only [hr] at hp
        cases res1 with
        | error e => simp at hp
        | ok pr =>
          obtain ⟨ps, s⟩ := pr
          simp only [Prod.mk.injEq, Except.ok.injEq] at hp
          obtain ⟨-, hitems, hsum⟩ := hp
          subst hitems
          subst hsum
          have ihr := ih evs1 ps s hr
          simp only [List.map_cons, List.sum_cons]
          rw [← ihr]
          rfl

/-
Claim theorems.
-/

/-- Claim C1 is false at a concrete input: with an engine subtotal of 10.01, a
client subtotal of 10.00 differs by exactly 0.01, which the claim says must be
accepted; the validator (an exact comparison of the two figures rounded to two
decimals) rejects it, and the full handler answers 400 with a subtotal
mismatch, leaving the store untouched. -/
theorem subtotal_tolerance_cex :
    subtotalOk 10 (1001 / 100) = false ∧
    |(10 : ℚ) - 1001 / 100| ≤ 1 / 100 ∧
    (createOrder db0 7 reqC1).2.1 =
      { status := 400, message := "Failed to create order"
        err := some (.subtotalMismatch 10 (1001 / 100)) } ∧
    (createOrder db0 7 reqC1).1 = db0 := by
  refine ⟨by decide, by norm_num [abs_le], by decide, by decide⟩

/-- Claim C1 (amended): the subtotal validator accepts the client-submitted
subtotalExclVAT iff it equals the engine-computed subtotal after each figure
is rounded to two decimals — a zero tolerance at two-decimal precision, so a
difference of exactly 0.01 is rejected with a SubtotalMismatch error and the
store is left unchanged (no order row is written). -/
theorem subtotal_validation_exact (db : DB) (uid : Nat) (r : OrderRequest)
    (evs : List Ev) (items : List PricedItem) (calcSub : ℚ)
    (hv : validateReq r = true)
    (hp : priceItems db r.cartItems = (evs, .ok (items, calcSub))) :
    ((createOrder db uid r).2.1.err = some (.subtotalMismatch r.subtotalExclVAT calcSub) ∧
      (createOrder db uid r).1 = db)
      ↔ round2 r.subtotalExclVAT ≠ round2 calcSub := by
  unfold createOrder txBody
  simp only [hv, hp]
  by_cases hsub : subtotalOk r.subtotalExclVAT calcSub
  · have heq : round2 r.subtotalExclVAT = round2 calcSub := by
      simpa [subtotalOk] using hsub
    unfold afterPricing writeOrder
    simp only [hsub, if_true]
    by_cases hship : shippingOk r.shippingCost <;>
      by_cases htot : totalOk r.total (calcTotal calcSub r.vatAmount r.shippingCost) <;>
        by_cases hins : db.insertFails <;>
          simp [hship, htot, hins, heq]
  · have hne : round2 r.subtotalExclVAT ≠ round2 calcSub := by
      simpa [subtotalOk] using hsub
    unfold afterPricing
    simp [hsub, hne]

/-- Witness for `subtotal_validation_exact`: on the concrete store `db0` and
request `reqC1` (client subtotal 10.00, engine subtotal 10.01) the hypotheses
hold and the validator rejects with a subtotal mismatch. -/
theorem subtotal_validation_exact_witness :
    validateReq reqC1 = true ∧
    ((createOrder db0 7 reqC1).2.1.err = some (.subtotalMismatch 10 (1001 / 100)) ∧
      (createOrder db0 7 reqC1).1 = db0) :=
  ⟨by decide,
   (subtotal_validation_exact db0 7 reqC1 [Ev.selectProduct 1] [pricedA] (1001 / 100)
      (by decide) (by rfl)).mpr (by decide)⟩

/-- Claim C2 is false at a concrete input: `prodOverlap` has tiers ordered by
min_quantity (tier 1 = [1,10]@100, tier 2 = [5,20]@90 — a configuration the
product-creation route accepts, since it only requires qty2_max > qty1_max);
quantity 7 lies within tier 2's range, yet the resolved price is tier 1's 100,
not tier 2's 90, because `find` returns the first matching tier. -/
theorem tier_in_range_cex :
    (tierPricing prodOverlap).get? 1 = some ⟨5, some 20, 90⟩ ∧
    tierMatch 7 ⟨5, some 20, 90⟩ = true ∧
    (resolveTier prodOverlap 7).price = 100 ∧
    ((100 : ℚ) ≠ 90) := by
  refine ⟨by decide, by decide, by decide, by norm_num⟩

/-- Claim C2 (amended): the resolved unit price is the price of the first tier
in the list whose range contains the quantity; when the tiers are pairwise
separated (each bounded tier lying strictly below the next tier's
min_quantity, as the data model requires), this is tier i's price for every
quantity in tier i's range; and when no tier's range contains the quantity,
the resolution falls back to tier 1 rather than erroring. -/
theorem tier_resolution_first_match (p : Product) (q i : Nat)
    (hi : i < (tierPricing p).length)
    (hsep : (tierPricing p).Pairwise (fun a b => tierBelow a b = true)) :
    (tierMatch q ((tierPricing p).get ⟨i, hi⟩) = true →
      (resolveTier p q).price = ((tierPricing p).get ⟨i, hi⟩).price) ∧
    ((∀ t ∈ tierPricing p, tierMatch q t = false) →
      resolveTier p q = tier1 p) := by
  constructor
  · intro hm
    unfold resolveTier
    rw [find_first_of_sep q (tierPricing p) i hi hsep hm]
    rfl
  · intro hnone
    unfold resolveTier
    rw [List.find?_eq_none.mpr (fun t ht => by simp [hnone t ht])]
    rfl

/-- Witness for `tier_resolution_first_match`: `prodTiered` has separated
tiers [1,5]@100, [6,10]@90, [11,∞)@80; quantity 7 falls in tier 2 and
resolves to 90, and quantity 0 matches no tier and falls back to tier 1. -/
theorem tier_resolution_first_match_witness :
    (tierPricing prodTiered).Pairwise (fun a b => tierBelow a b = true) ∧
    tierMatch 7 ((tierPricing prodTiered).get ⟨1, by decide⟩) = true ∧
    (resolveTier prodTiered 7).price =
      ((tierPricing prodTiered).get ⟨1, by decide⟩).price ∧
    (∀ t ∈ tierPricing prodTiered, tierMatch 0 t = false) ∧
    resolveTier prodTiered 0 = tier1 prodTiered :=
  ⟨by decide, by decide,
   (tier_resolution_first_match prodTiered 7 1 (by decide) (by decide)).1 (by decide),
   by decide,
   (tier_resolution_first_match prodTiered 0 1 (by decide) (by decide)).2 (by decide)⟩

/-- Claim C3: the engine-computed order subtotal equals the sum over the
priced lines of round2(unit_price / (1 + vat_rate/100)) × quantity — each
line's VAT-exclusive unit price rounded to two decimals independently before
multiplication and summation. -/
theorem engine_subtotal_is_sum (db : DB) (cart : List CartItem) (evs : List Ev)
    (items : List PricedItem) (calcSub : ℚ)
    (hp : priceItems db cart = (evs, .ok (items, calcSub))) :
    calcSub = (items.map (fun pr =>
      round2 (pr.unitPrice / (1 + pr.vatRate / 100)) * (pr.quantity : ℚ))).sum :=
  priceItems_sum db cart evs items calcSub hp

/-- Witness for `engine_subtotal_is_sum`: the engine subtotal of `reqC1`'s
cart against `db0` is 10.01, the per-line formula summed over its single
priced line. -/
theorem engine_subtotal_is_sum_witness :
    priceItems db0 reqC1.cartItems = ([Ev.selectProduct 1], .ok ([pricedA], 1001 / 100)) ∧
    (1001 / 100 : ℚ) = ([pricedA].map (fun pr =>
      round2 (pr.unitPrice / (1 + pr.vatRate / 100)) * (pr.quantity : ℚ))).sum :=
  ⟨by rfl, engine_subtotal_is_sum db0 reqC1.cartItems [Ev.selectProduct 1] [pricedA] (1001 / 100) (by rfl)⟩

/-- Claim C4: order creation is atomic — whenever the transaction body raises
any error (product lookup, stock check, pricing validation, header insert,
line insert or stock decrement), the handler rolls back and the committed
orders, order_items and products tables are exactly as before the request. -/
theorem rollback_restores_state (db : DB) (uid : Nat) (r : OrderRequest)
    (evs : List Ev) (e : OrderError)
    (hv : validateReq r = true)
    (ht : txBody db uid r = (evs, .error e)) :
    (createOrder db uid r).1.orders = db.orders ∧
    (createOrder db uid r).1.orderItems = db.orderItems ∧
    (createOrder db uid r).1.products = db.products ∧
    Ev.rollback ∈ (createOrder db uid r).2.2 := by
  unfold createOrder
  simp [hv, ht]

/-- Witness for `rollback_restores_state`: against the store `dbFail` (whose
storage layer fails the order-header INSERT) the otherwise-consistent request
`reqOk` errors inside the transaction and every table is left unchanged. -/
theorem rollback_restores_state_witness :
    validateReq reqOk = true ∧
    txBody dbFail 7 reqOk =
      ([Ev.selectProduct 1, Ev.nextval, Ev.insertOrder], .error .insertFailure) ∧
    ((createOrder dbFail 7 reqOk).1.orders = dbFail.orders ∧
     (createOrder dbFail 7 reqOk).1.orderItems = dbFail.orderItems ∧
     (createOrder dbFail 7 reqOk).1.products = dbFail.products ∧
     Ev.rollback ∈ (createOrder dbFail 7 reqOk).2.2) :=
  ⟨by decide, by rfl,
   rollback_restores_state dbFail 7 reqOk
     [Ev.selectProduct 1, Ev.nextval, Ev.insertOrder] .insertFailure (by decide) (by rfl)⟩

/-- Claim C5 is false at a concrete input: `prodB`'s catalog (tier-1) price is
1160, yet a request overriding the line's unitPrice to 1.16 and submitting
figures consistent with the override is accepted (201) and the order line is
stored at 1.16 — no cross-check of the override against the catalog price
ever happens, so a client can price a line arbitrarily. -/
theorem override_trusted_cex :
    (createOrder dbB 7 reqB).2.1.status = 201 ∧
    (createOrder dbB 7 reqB).1.orderItems.map (fun it => it.unitPrice) = [116 / 100] ∧
    (resolveTier prodB 1).price = 1160 ∧
    ((116 : ℚ) / 100) ≠ 1160 := by
  refine ⟨by rfl, by rfl, by decide, by norm_num⟩

/-- Claim C5 (amended): for a cart line carrying a client-supplied unitPrice
override that parses to a nonzero number, the pricing engine uses the override
verbatim in place of the tier-resolved catalog price, with no comparison
against the catalog price; the only consistency enforced downstream is between
the client's submitted totals and figures computed from the override itself. -/
theorem override_replaces_tier_price (p : Product) (it : CartItem) (u : ℚ)
    (hu : it.unitPrice = some u) (hne : u ≠ 0) :
    (priceLine p it).unitPrice = u := by
  simp [priceLine, jsOrQ, hu, hne]

/-- Witness for `override_replaces_tier_price`: the override 1.16 on `itemB`
is used as the unit price against `prodB` (catalog price 1160). -/
theorem override_replaces_tier_price_witness :
    itemB.unitPrice = some (116 / 100) ∧
    ((116 : ℚ) / 100) ≠ 0 ∧
    (priceLine prodB itemB).unitPrice = 116 / 100 :=
  ⟨by decide, by norm_num,
   override_replaces_tier_price prodB itemB (116 / 100) (by decide) (by norm_num)⟩

/-- Claim C6 is false at a concrete input: a persistence failure (the storage
layer failing the order-header INSERT) inside the transaction is answered with
HTTP 400 carrying the error, not the claimed 500. -/
theorem persistence_error_status_cex :
    (createOrder dbFail 7 reqOk).2.1.status = 400 ∧
    (createOrder dbFail 7 reqOk).2.1.err = some OrderError.insertFailure ∧
    (createOrder dbFail 7 reqOk).2.1.status ≠ 500 := by
  refine ⟨by rfl, by rfl, by decide⟩

/-- Claim C6 (amended): input-validation failures and every error thrown
inside the order-creation transaction — the three business-rule errors and
persistence failures alike — are returned as HTTP 400 with the error attached
(`error: err.message`); no error inside the transaction ever yields a 500. -/
theorem tx_errors_all_400 (db : DB) (uid : Nat) (r : OrderRequest)
    (evs : List Ev) (e : OrderError)
    (hv : validateReq r = true)
    (ht : txBody db uid r = (evs, .error e)) :
    (createOrder db uid r).2.1 =
      { status := 400, message := "Failed to create order", err := some e } := by
  unfold createOrder
  simp [hv, ht]

/-- Witness for `tx_errors_all_400`: the persistence failure on `dbFail` is
mapped to the 400 response carrying `insertFailure`. -/
theorem tx_errors_all_400_witness :
    validateReq reqOk = true ∧
    (createOrder dbFail 7 reqOk).2.1 =
      { status := 400, message := "Failed to create order"
        err := some OrderError.insertFailure } :=
  ⟨by decide,
   tx_errors_all_400 dbFail 7 reqOk
     [Ev.selectProduct 1, Ev.nextval, Ev.insertOrder] .insertFailure (by decide) (by rfl)⟩

/-- Claim C7 is false at a concrete input: for a request naming an unknown
product, the statement trace is BEGIN, the product SELECT, then ROLLBACK — the
transaction is opened before the pricing/validation failure, and that failure
does require a rollback. -/
theorem begin_before_validation_cex :
    (createOrder db0 7 reqBad).2.2 = [Ev.begin, Ev.selectProduct 99, Ev.rollback] ∧
    (createOrder db0 7 reqBad).2.1.err = some (OrderError.productNotFound 99) := by
  refine ⟨by rfl, by rfl⟩

/-- Claim C7 (amended): the transaction is opened before any product lookup,
pricing or validation work — BEGIN is always the first statement of the
handler's trace — and every pricing/validation failure therefore happens
inside the transaction scope and is followed by a ROLLBACK. -/
theorem begin_precedes_validation (db : DB) (uid : Nat) (r : OrderRequest)
    (hv : validateReq r = true) :
    (createOrder db uid r).2.2.head? = some Ev.begin ∧
    (∀ evs e, txBody db uid r = (evs, .error e) →
      Ev.rollback ∈ (createOrder db uid r).2.2) := by
  constructor
  · unfold createOrder
    simp only [hv]
    rcases htx : txBody db uid r with ⟨evs, res⟩
    cases res <;> simp
  · intro evs e ht
    unfold createOrder
    simp [hv, ht]

/-- Witness for `begin_precedes_validation`: on the unknown-product request
`reqBad`, BEGIN heads the trace and the lookup failure is rolled back. -/
theorem begin_precedes_validation_witness :
    validateReq reqBad = true ∧
    (createOrder db0 7 reqBad).2.2.head? = some Ev.begin ∧
    Ev.rollback ∈ (createOrder db0 7 reqBad).2.2 :=
  ⟨by decide,
   (begin_precedes_validation db0 7 reqBad (by decide)).1,
   (begin_precedes_validation db0 7 reqBad (by decide)).2
     [Ev.selectProduct 99] (.productNotFound 99) (by rfl)⟩

/-- Claim C8 names a code bug: the mounted `GET /:orderId` route carries no
authentication middleware, so `req.user` is never populated; the handler's
first read of `req.user.id` raises a TypeError and every request — owner,
admin or stranger, existing order or not — is answered by the 500 error
middleware, never with the order data or the claimed 404. -/
theorem get_order_route_always_500 (db : DB) (oid : Nat) :
    getOrderByIdRoute db oid = GetOrderResult.serverError := rfl

/-- Claim C9 names a code bug: the stock check is a plain SELECT and the stock
decrement a blind relative UPDATE, so under the interleaving in which both
transactions run their stock checks before either commits (schedule
T1-check, T2-check, T1-commit, T2-commit), both orders of quantity 3 against
stock 5 commit and the committed stock reaches −1. -/
theorem concurrent_oversell :
    runSched 3 [true, false, true, false] { stock := 5, t1 := .ready, t2 := .ready } =
      { stock := -1, t1 := .committed, t2 := .committed } := by decide

/-- Claim C10: the server never recomputes the VAT amount — on every
successful order creation the stored header's vat_amount is exactly the
client-submitted vatAmount — and the only constraint on it is total
consistency: for any figures, the total check passes whenever the submitted
total equals round(round2(computedSubtotal) + vatAmount + shippingCost). -/
theorem vat_never_recomputed (db : DB) (uid : Nat) (r : OrderRequest)
    (evs : List Ev) (db1 : DB) (oid : Nat) (onum : String)
    (hv : validateReq r = true)
    (ht : txBody db uid r = (evs, .ok (db1, oid, onum))) :
    ((createOrder db uid r).1.orders.getLast?.map (fun o => o.vatAmount)
      = some r.vatAmount) ∧
    (∀ v ship sub total : ℚ, total = ((calcTotal sub v ship : ℤ) : ℚ) →
      totalOk total (calcTotal sub v ship) = true) := by
  constructor
  · unfold createOrder
    simp only [hv, ht]
    unfold txBody at ht
    rcases hpi : priceItems db r.cartItems with ⟨evs0, res0⟩
    rw [hpi] at ht
    cases res0 with
    | error e => simp at ht
    | ok pr =>
      obtain ⟨items, cs⟩ := pr
      simp only [Prod.mk.injEq] at ht
      obtain ⟨-, h2⟩ := ht
      unfold afterPricing at h2
      split_ifs at h2 with h3 h4 h5
      · unfold writeOrder at h2
        by_cases h6 : db.insertFails
        · rw [if_pos h6] at h2
          simp at h2
        · rw [if_neg h6] at h2
          simp only [Except.ok.injEq, Prod.mk.injEq] at h2
          obtain ⟨hdb, -, -⟩ := h2
          subst hdb
          simp [insertItems_orders, List.getLast?_concat]
  · intro v ship sub total htot
    subst htot
    simp [totalOk, round2_intCast]

/-- Witness for `vat_never_recomputed`: the successful run of `reqB` against
`dbB` stores vat_amount 0, exactly the client-submitted figure. -/
theorem vat_never_recomputed_witness :
    validateReq reqB = true ∧
    txBody dbB 7 reqB =
      ([Ev.selectProduct 2, Ev.nextval, Ev.insertOrder, Ev.insertItem 2, Ev.updateStock 2],
       .ok (dbB1, 1, "ORD000001")) ∧
    (createOrder dbB 7 reqB).1.orders.getLast?.map (fun o => o.vatAmount) =
      some reqB.vatAmount :=
  ⟨by decide, by rfl,
   (vat_never_recomputed dbB 7 reqB
     [Ev.selectProduct 2, Ev.nextval, Ev.insertOrder, Ev.insertItem 2, Ev.updateStock 2]
     dbB1 1 "ORD000001" (by decide) (by rfl)).1⟩

end Shop
